import Mathlib

/-!
Verification development for the `CustomSession` wrapper
(src/CustomSession.py): a thin wrapper over an HTTP client session that
configures a retry policy, a timeout attribute, optional headers and a fixed
pre-request delay, and exposes `get_session` and `hit_and_get_data`.

The embedding models:
  * JSON values and the parsing of a response body (`response.json()` /
    Python's `json` module), restricted to integer numerals and to the
    common string escapes (no floats, no \uXXXX escapes) - the claims under
    study never depend on those corners;
  * the `requests` session: its adapter table (`mount` / `get_adapter`),
    the fact that `Session.get`'s `timeout` argument defaults to `None`
    and that an ad-hoc `timeout` attribute stored on the session object is
    never consulted by the library;
  * urllib3's `Retry` bookkeeping: `increment` decrements `total` and the
    policy is exhausted when `total` would drop below zero, and
    `get_backoff_time` returns 0 before the first consecutive retry and
    `backoff_factor * 2^(n-1)` seconds before the n-th for n >= 2, capped
    at `BACKOFF_MAX` (120);
  * the wrapper itself: `CustomSession.init` (`__init__`), `get_session`
    and `hit_and_get_data`, the latter returning both its Python return
    value and the trace of observable events (sleep, issued request,
    diagnostic prints).
-/

/-- JSON values, as produced by Python's `json.loads` / `response.json()`
(numbers restricted to integers in this model). -/
inductive Json where
  | null : Json
  | bool (b : Bool) : Json
  | num (n : Int) : Json
  | str (s : String) : Json
  | arr (xs : List Json) : Json
  | obj (kvs : List (String × Json)) : Json

/-- Skip JSON whitespace, as `json.loads` does between tokens. -/
def skipWs : List Char → List Char
  | [] => []
  | c :: cs =>
    if c == ' ' || c == '\t' || c == '\n' || c == '\r' then skipWs cs
    else c :: cs

/-- The string escapes `\" \\ \/ \n \t \r` recognised by the model
(Python's `json` also handles `\b \f \uXXXX`, which no claim exercises). -/
def escChar (c : Char) : Option Char :=
  if c == '\"' then some '\"'
  else if c == '\\' then some '\\'
  else if c == '/' then some '/'
  else if c == 'n' then some '\n'
  else if c == 't' then some '\t'
  else if c == 'r' then some '\r'
  else none

/-- Parse the body of a JSON string literal (after the opening quote),
returning the decoded characters and the input past the closing quote. -/
def parseStringBody : Nat → List Char → Option (List Char × List Char)
  | 0, _ => none
  | _ + 1, [] => none
  | fuel + 1, c :: cs =>
    if c == '\"' then some ([], cs)
    else if c == '\\' then
      match cs with
      | [] => none
      | d :: ds =>
        match escChar d with
        | none => none
        | some e =>
          match parseStringBody fuel ds with
          | none => none
          | some (s, r) => some (e :: s, r)
    else
      match parseStringBody fuel cs with
      | none => none
      | some (s, r) => some (c :: s, r)

/-- Take the longest run of decimal digits from the front of the input. -/
def takeDigits : List Char → List Char × List Char
  | [] => ([], [])
  | c :: cs =>
    if c.isDigit then
      let (ds, r) := takeDigits cs
      (c :: ds, r)
    else ([], c :: cs)

/-- Decimal digits to a natural number. -/
def digitsToNat (ds : List Char) : Nat :=
  ds.foldl (fun acc c => acc * 10 + (c.toNat - 48)) 0

/-- Match a literal character sequence at the front of the input. -/
def stripChars : List Char → List Char → Option (List Char)
  | [], rest => some rest
  | _ :: _, [] => none
  | p :: ps, c :: cs => if p == c then stripChars ps cs else none

/-- Parsing mode: a single value, the items of a non-empty array, or the
members of a non-empty object. -/
inductive PMode where
  | value : PMode
  | items : PMode
  | members : PMode

/-- Intermediate parse results for the three modes. -/
inductive PRes where
  | val (v : Json) : PRes
  | items (vs : List Json) : PRes
  | members (ms : List (String × Json)) : PRes

/-- Recursive-descent JSON parser, modelling the grammar accepted by
Python's `json.loads` (integers only for numbers). Fuel makes the
recursion structural; `parseJson` supplies enough fuel for any input. -/
def parseCore : Nat → PMode → List Char → Option (PRes × List Char)
  | 0, _, _ => none
  | fuel + 1, PMode.value, input =>
    match skipWs input with
    | [] => none
    | c :: cs =>
      if c == '\"' then
        match parseStringBody (cs.length + 1) cs with
        | some (s, r) => some (PRes.val (Json.str (String.mk s)), r)
        | none => none
      else if c == 't' then
        (stripChars ['r', 'u', 'e'] cs).map (fun r => (PRes.val (Json.bool true), r))
      else if c == 'f' then
        (stripChars ['a', 'l', 's', 'e'] cs).map (fun r => (PRes.val (Json.bool false), r))
      else if c == 'n' then
        (stripChars ['u', 'l', 'l'] cs).map (fun r => (PRes.val Json.null, r))
      else if c == '-' then
        match takeDigits cs with
        | ([], _) => none
        | (ds, r) => some (PRes.val (Json.num (-(digitsToNat ds : Int))), r)
      else if c.isDigit then
        match takeDigits (c :: cs) with
        | ([], _) => none
        | (ds, r) => some (PRes.val (Json.num ((digitsToNat ds : Int))), r)
      else if c == '[' then
        match skipWs cs with
        | ']' :: r => some (PRes.val (Json.arr []), r)
        | rest =>
          match parseCore fuel PMode.items rest with
          | some (PRes.items vs, r) => some (PRes.val (Json.arr vs), r)
          | _ => none
      else if c == '\x7b' then
        match skipWs cs with
        | '\x7d' :: r => some (PRes.val (Json.obj []), r)
        | rest =>
          match parseCore fuel PMode.members rest with
          | some (PRes.members ms, r) => some (PRes.val (Json.obj ms), r)
          | _ => none
      else none
  | fuel + 1, PMode.items, input =>
    match parseCore fuel PMode.value input with
    | some (PRes.val v, r) =>
      (match skipWs r with
       | ',' :: r2 =>
         match parseCore fuel PMode.items r2 with
         | some (PRes.items vs, r3) => some (PRes.items (v :: vs), r3)
         | _ => none
       | ']' :: r2 => some (PRes.items [v], r2)
       | _ => none)
    | _ => none
  | fuel + 1, PMode.members, input =>
    match skipWs input with
    | '\"' :: cs =>
      match parseStringBody (cs.length + 1) cs with
      | none => none
      | some (k, r) =>
        match skipWs r with
        | ':' :: r2 =>
          match parseCore fuel PMode.value r2 with
          | some (PRes.val v, r3) =>
            (match skipWs r3 with
             | ',' :: r4 =>
               match parseCore fuel PMode.members r4 with
               | some (PRes.members ms, r5) => some (PRes.members ((String.mk k, v) :: ms), r5)
               | _ => none
             | '\x7d' :: r4 => some (PRes.members [(String.mk k, v)], r4)
             | _ => none)
          | _ => none
        | _ => none
    | _ => none

/-- `json.loads` on a whole document: parse one value and require only
whitespace to remain; `none` models a raised `JSONDecodeError`. -/
def parseJson (s : String) : Option Json :=
  match parseCore (2 * s.length + 4) PMode.value s.data with
  | some (PRes.val v, rest) => if skipWs rest = [] then some v else none
  | _ => none

/-- urllib3 retry policy, as configured by the constructor's
`Retry(total=3, backoff_factor=2, status_forcelist=[...])`. -/
structure Retry where
  total : Nat
  backoff_factor : Nat
  status_forcelist : List Nat
deriving DecidableEq

/-- `requests.adapters.HTTPAdapter(max_retries=...)`. -/
structure HTTPAdapter where
  max_retries : Retry
deriving DecidableEq

/-- The retry policy of a default `HTTPAdapter()`: `DEFAULT_RETRIES = 0`,
no backoff, no status forcelist. -/
def defaultRetry : Retry :=
  { total := 0, backoff_factor := 0, status_forcelist := [] }

/-- A `requests.Session`: its adapter table (transport prefix to adapter,
kept ordered so that longer prefixes are tried first) plus the ad-hoc
`timeout` attribute the wrapper assigns (requests itself never reads it). -/
structure Session where
  adapters : List (String × HTTPAdapter)
  timeout : Option Nat
deriving DecidableEq

/-- `requests.session()`: a fresh session mounts a default adapter for
`https://` and then one for `http://`; no `timeout` attribute exists. -/
def requestsSession : Session :=
  { adapters := [("https://", { max_retries := defaultRetry }),
                 ("http://", { max_retries := defaultRetry })],
    timeout := none }

/-- `Session.mount(prefix, adapter)`: store the adapter under the prefix
(updating in place if present, appending otherwise), then move every key
shorter than the prefix behind it, preserving order - so `get_adapter`
tries longer prefixes first. -/
def Session.mount (s : Session) (pfx : String) (a : HTTPAdapter) : Session :=
  let updated :=
    if s.adapters.any (fun kv => kv.1 = pfx) then
      s.adapters.map (fun kv => if kv.1 = pfx then (pfx, a) else kv)
    else s.adapters ++ [(pfx, a)]
  let keep := updated.filter (fun kv => pfx.length ≤ kv.1.length)
  let moved := updated.filter (fun kv => kv.1.length < pfx.length)
  { s with adapters := keep ++ moved }

/-- `p` is a prefix of `u` (character lists). -/
def isPfxOf : List Char → List Char → Bool
  | [], _ => true
  | _ :: _, [] => false
  | p :: ps, u :: us => p == u && isPfxOf ps us

/-- Lower-case a string character by character (Python's `str.lower` on
the ASCII transport prefixes involved here). -/
def lowerChars (cs : List Char) : List Char :=
  cs.map Char.toLower

/-- `Session.get_adapter(url)`: the first mounted adapter whose prefix
matches the URL case-insensitively (`url.lower().startswith(prefix.lower())`);
`none` models the `InvalidSchema` raised when nothing matches. -/
def Session.get_adapter (s : Session) (url : String) : Option HTTPAdapter :=
  (s.adapters.find? (fun kv => isPfxOf (lowerChars kv.1.data) (lowerChars url.data))).map
    (fun kv => kv.2)

/-- Modelled from urllib3: `Retry.increment` decrements `total`, and the
new policy `is_exhausted` (raising `MaxRetryError`, here `none`) when
`total` would drop below zero. -/
def Retry.increment (r : Retry) : Option Retry :=
  if r.total = 0 then none
  else some { r with total := r.total - 1 }

/-- Modelled from urllib3's `urlopen` retry loop against an endpoint that
always answers with the given status: one attempt, then, if the status is
in the forcelist, increment the policy and go again until it is exhausted.
Counts the attempts. Fuel only makes the recursion structural;
`urlopenAttempts` supplies more fuel than `total` allows attempts. -/
def urlopenLoop : Nat → Retry → Nat → Nat
  | 0, _, _ => 1
  | fuel + 1, r, status =>
    if status ∈ r.status_forcelist then
      match r.increment with
      | none => 1
      | some r2 => 1 + urlopenLoop fuel r2 status
    else 1

/-- Total HTTP attempts a persistently failing endpoint receives under a
retry policy. -/
def urlopenAttempts (r : Retry) (status : Nat) : Nat :=
  urlopenLoop (r.total + 1) r status

/-- urllib3's cap on a single backoff interval, in seconds. -/
def BACKOFF_MAX : Nat := 120

/-- Modelled from urllib3 `Retry.get_backoff_time`: with
`consecutive_errors_len <= 1` (that is, before the first consecutive
retry) it returns 0; before the `n`-th consecutive retry for `n >= 2` the
policy sleeps `backoff_factor * 2^(n-1)` seconds, capped at
`BACKOFF_MAX`. -/
def Retry.get_backoff_time (r : Retry) (n : Nat) : Nat :=
  if n ≤ 1 then 0
  else min BACKOFF_MAX (r.backoff_factor * 2 ^ (n - 1))

/-- A GET request as handed to the transport by `Session.get`: the URL,
the `params` and `headers` keyword arguments, and the `timeout` argument -
which defaults to `None` in `requests` when the caller does not pass it
(the library never reads a `timeout` attribute stored on the session). -/
structure Request where
  url : String
  params : Option (List (String × String))
  headers : List (String × String)
  timeout : Option Nat
deriving DecidableEq

/-- What the single `session.get` call inside `hit_and_get_data` comes to:
either a response object whose body is the given text, or a raised
connection/transport error (network failure, retries exhausted, timeout),
rendered as the error's message. -/
inductive GetOutcome where
  | response (body : String) : GetOutcome
  | connError (err : String) : GetOutcome

/-- Observable events of one `hit_and_get_data` call: the blocking
`time.sleep`, the request issued through the session, and a diagnostic
line printed on failure. -/
inductive Event where
  | sleep (seconds : Nat) : Event
  | request (r : Request) : Event
  | diagnostic (msg : String) : Event
deriving DecidableEq

/-- The `CustomSession` wrapper's attributes: `self.session`,
`self.headers`, `self.delay`. -/
structure CustomSession where
  session : Session
  headers : List (String × String)
  delay : Nat
deriving DecidableEq

/-- The local `retries` policy built in `__init__`:
`Retry(total=3, backoff_factor=2,
status_forcelist=[500, 502, 503, 504, 400, 401, 402, 403])`. -/
def initRetries : Retry :=
  { total := 3
    backoff_factor := 2
    status_forcelist := [500, 502, 503, 504, 400, 401, 402, 403] }

/-- `CustomSession.__init__(headers=None)`: create a fresh session, keep
the headers if truthy (else `{}`), mount an adapter carrying `initRetries`
on the `https://` prefix, assign `session.timeout = 30`, set `delay = 1`. -/
def CustomSession.init (headers : Option (List (String × String))) : CustomSession :=
  let s0 := requestsSession
  let hs := match headers with
    | some h => if h.isEmpty then [] else h
    | none => []
  let s1 := s0.mount "https://" { max_retries := initRetries }
  let s2 := { s1 with timeout := some 30 }
  { session := s2, headers := hs, delay := 1 }

/-- `CustomSession.get_session()`: `return self.session` - the returned
handle together with the (unchanged) post-call state of the wrapper. -/
def CustomSession.get_session (cs : CustomSession) : Session × CustomSession :=
  (cs.session, cs)

/-- `CustomSession.hit_and_get_data(url, params=None)` against a given
transport outcome. Inside `try`: `time.sleep(self.delay)`, then
`self.session.get(url, params=params, headers=self.headers)` (no
`timeout` argument, so `requests`' default `None` applies), then
`return response.json()`. `except json.JSONDecodeError` prints a line
naming the URL and returns `{}`; `except Exception` prints a line naming
the URL and the error and returns `{}`. Returns the Python return value
paired with the trace of observable events. -/
def CustomSession.hit_and_get_data (cs : CustomSession) (url : String)
    (params : Option (List (String × String))) (outcome : GetOutcome) :
    Json × List Event :=
  let req : Request :=
    { url := url, params := params, headers := cs.headers, timeout := none }
  match outcome with
  | GetOutcome.response body =>
    match parseJson body with
    | some v => (v, [Event.sleep cs.delay, Event.request req])
    | none =>
      (Json.obj [],
       [Event.sleep cs.delay, Event.request req,
        Event.diagnostic ("Failed to decode JSON from response at URL: " ++ url)])
  | GetOutcome.connError err =>
    (Json.obj [],
     [Event.sleep cs.delay, Event.request req,
      Event.diagnostic ("Error in connecting to URL: " ++ url ++ " | Error: " ++ err)])

/-- The diagnostic lines printed during a call, in order. -/
def diagnosticsOf (t : List Event) : List String :=
  t.filterMap (fun e =>
    match e with
    | Event.diagnostic m => some m
    | _ => none)

/-- The requests issued during a call, in order. -/
def requestsOf (t : List Event) : List Request :=
  t.filterMap (fun e =>
    match e with
    | Event.request r => some r
    | _ => none)

/-- C1: for every url and params, `hit_and_get_data` never raises to the
caller - its embedding is a total function - and on either failure mode
(a response body that is not valid JSON, or any connection/transport
failure, including retries exhausted and timeout) its return value is the
empty mapping `{}`. -/
theorem hit_and_get_data_never_raises (cs : CustomSession) (url : String)
    (params : Option (List (String × String))) :
    (∀ err, (cs.hit_and_get_data url params (GetOutcome.connError err)).1 = Json.obj []) ∧
    (∀ body, parseJson body = none →
      (cs.hit_and_get_data url params (GetOutcome.response body)).1 = Json.obj []) := by
  constructor
  · intro err
    rfl
  · intro body h
    simp only [CustomSession.hit_and_get_data, h]

/-- Witness for C1 at concrete inputs: the body `not-json` does not parse,
and both failure modes return `{}`. -/
theorem hit_and_get_data_never_raises_witness :
    parseJson "not-json" = none ∧
    ((CustomSession.init none).hit_and_get_data "https://example.test/data" none
      (GetOutcome.response "not-json")).1 = Json.obj [] ∧
    ((CustomSession.init none).hit_and_get_data "https://example.test/data" none
      (GetOutcome.connError "connection refused")).1 = Json.obj [] := by
  refine ⟨rfl, ?_, ?_⟩
  · exact (hit_and_get_data_never_raises (CustomSession.init none)
      "https://example.test/data" none).2 "not-json" rfl
  · exact (hit_and_get_data_never_raises (CustomSession.init none)
      "https://example.test/data" none).1 "connection refused"

/-- C2: whenever the response body is well-formed JSON, `hit_and_get_data`
returns exactly the JSON parse of that body (mapping, array or scalar),
unmodified. -/
theorem hit_and_get_data_returns_parsed_json (cs : CustomSession) (url : String)
    (params : Option (List (String × String))) (body : String) (v : Json)
    (h : parseJson body = some v) :
    (cs.hit_and_get_data url params (GetOutcome.response body)).1 = v := by
  simp only [CustomSession.hit_and_get_data, h]

/-- Witness for C2: the spec's own example - headers
`Accept: application/json`, params `id=1`, body
`{"id": "1", "name": "x"}` - returns that object. -/
theorem hit_and_get_data_returns_parsed_json_witness :
    parseJson "\x7b\"id\": \"1\", \"name\": \"x\"\x7d" =
      some (Json.obj [("id", Json.str "1"), ("name", Json.str "x")]) ∧
    ((CustomSession.init (some [("Accept", "application/json")])).hit_and_get_data
        "https://example.test/data" (some [("id", "1")])
        (GetOutcome.response "\x7b\"id\": \"1\", \"name\": \"x\"\x7d")).1 =
      Json.obj [("id", Json.str "1"), ("name", Json.str "x")] := by
  refine ⟨rfl, ?_⟩
  exact hit_and_get_data_returns_parsed_json
    (CustomSession.init (some [("Accept", "application/json")]))
    "https://example.test/data" (some [("id", "1")])
    "\x7b\"id\": \"1\", \"name\": \"x\"\x7d"
    (Json.obj [("id", Json.str "1"), ("name", Json.str "x")]) rfl

/-- C9: `get_session` takes no inputs, cannot fail and has no side
effects: it returns the session stored in the wrapper, leaves every field
(session, headers, delay) unchanged, and repeated calls return the same
handle. -/
theorem get_session_pure (cs : CustomSession) :
    (cs.get_session).1 = cs.session ∧
    (cs.get_session).2 = cs ∧
    (cs.get_session).2.session = cs.session ∧
    (cs.get_session).2.headers = cs.headers ∧
    (cs.get_session).2.delay = cs.delay ∧
    ((cs.get_session).2.get_session).1 = (cs.get_session).1 :=
  ⟨rfl, rfl, rfl, rfl, rfl, rfl⟩

/-- C10: the return value of `hit_and_get_data` is determined solely by
the response body received from the transport: any two calls - on any
wrapper instances, urls and params - whose requests yield identical
response bodies return equal values, and likewise any two calls whose
transport raises return equal values (`{}`); the url argument never
influences the returned value. -/
theorem result_depends_only_on_body (cs₁ cs₂ : CustomSession)
    (url₁ url₂ : String) (params₁ params₂ : Option (List (String × String))) :
    (∀ body,
      (cs₁.hit_and_get_data url₁ params₁ (GetOutcome.response body)).1 =
      (cs₂.hit_and_get_data url₂ params₂ (GetOutcome.response body)).1) ∧
    (∀ err₁ err₂,
      (cs₁.hit_and_get_data url₁ params₁ (GetOutcome.connError err₁)).1 =
      (cs₂.hit_and_get_data url₂ params₂ (GetOutcome.connError err₂)).1) := by
  constructor
  · intro body
    cases h : parseJson body <;> simp only [CustomSession.hit_and_get_data, h]
  · intro err₁ err₂
    rfl

/-- Every call issues exactly one request, built from the call's url and
params and the wrapper's stored headers, with no `timeout` argument
(`requests`' default `None`). -/
theorem requestsOf_hit (cs : CustomSession) (url : String)
    (params : Option (List (String × String))) (outcome : GetOutcome) :
    requestsOf (cs.hit_and_get_data url params outcome).2 =
      [{ url := url, params := params, headers := cs.headers, timeout := none }] := by
  cases outcome with
  | response body =>
    cases h : parseJson body <;> simp only [CustomSession.hit_and_get_data, h] <;> rfl
  | connError err => rfl

/-- The headers stored by the constructor are the ones supplied (an empty
mapping is falsy in Python, but `{}` is what it is replaced with). -/
theorem init_headers (hdrs : List (String × String)) :
    (CustomSession.init (some hdrs)).headers = hdrs := by
  cases hdrs <;> rfl

/-- C7: every call to `hit_and_get_data` on a constructed wrapper first
blocks for the fixed pre-request delay of exactly 1 second and only then
issues the GET request: the trace of every call starts with the sleep
event, immediately followed by the request event. -/
theorem sleep_one_second_then_request (hdrs : Option (List (String × String)))
    (url : String) (params : Option (List (String × String))) (outcome : GetOutcome) :
    ∃ rest, ((CustomSession.init hdrs).hit_and_get_data url params outcome).2 =
      Event.sleep 1 ::
      Event.request { url := url, params := params,
                      headers := (CustomSession.init hdrs).headers,
                      timeout := none } :: rest := by
  cases outcome with
  | response body =>
    cases h : parseJson body <;>
      simp only [CustomSession.hit_and_get_data, h] <;> exact ⟨_, rfl⟩
  | connError err => exact ⟨_, rfl⟩

/-- C8: on a JSON decode failure the call prints exactly one diagnostic
line naming the URL; on a connection failure it prints exactly one line
naming the URL and the underlying error; both return `{}`; a successful
call prints nothing. -/
theorem failure_emits_one_diagnostic (cs : CustomSession) (url : String)
    (params : Option (List (String × String))) :
    (∀ body, parseJson body = none →
      diagnosticsOf (cs.hit_and_get_data url params (GetOutcome.response body)).2 =
        ["Failed to decode JSON from response at URL: " ++ url] ∧
      (cs.hit_and_get_data url params (GetOutcome.response body)).1 = Json.obj []) ∧
    (∀ err,
      diagnosticsOf (cs.hit_and_get_data url params (GetOutcome.connError err)).2 =
        ["Error in connecting to URL: " ++ url ++ " | Error: " ++ err] ∧
      (cs.hit_and_get_data url params (GetOutcome.connError err)).1 = Json.obj []) ∧
    (∀ body v, parseJson body = some v →
      diagnosticsOf (cs.hit_and_get_data url params (GetOutcome.response body)).2 = []) := by
  refine ⟨fun body h => ?_, fun err => ?_, fun body v h => ?_⟩
  · simp only [CustomSession.hit_and_get_data, h]
    exact ⟨rfl, by simp⟩
  · exact ⟨rfl, rfl⟩
  · simp only [CustomSession.hit_and_get_data, h]
    rfl

/-- Witness for C8 at concrete inputs: one decode-failure line and one
connection-failure line, each naming the URL. -/
theorem failure_emits_one_diagnostic_witness :
    parseJson "not-json" = none ∧
    diagnosticsOf ((CustomSession.init none).hit_and_get_data "https://example.test/bad" none
        (GetOutcome.response "not-json")).2 =
      ["Failed to decode JSON from response at URL: https://example.test/bad"] ∧
    diagnosticsOf ((CustomSession.init none).hit_and_get_data "https://example.test/bad" none
        (GetOutcome.connError "connection refused")).2 =
      ["Error in connecting to URL: https://example.test/bad | Error: connection refused"] := by
  refine ⟨rfl, ?_, ?_⟩
  · exact (((failure_emits_one_diagnostic (CustomSession.init none)
      "https://example.test/bad" none).1 "not-json" rfl).1).trans rfl
  · exact (((failure_emits_one_diagnostic (CustomSession.init none)
      "https://example.test/bad" none).2.1 "connection refused").1).trans rfl

/-- C3 is refuted at the concrete URL `http://example.test/data`: the
constructor mounts the adapter carrying the configured retry policy only
on the `https://` prefix, so a request to an `http://` URL is served by
the session's default adapter, whose policy allows 0 retries - the retry
policy does NOT govern every request regardless of the URL's scheme. -/
theorem retry_policy_depends_on_scheme :
    ((CustomSession.init none).session.get_adapter "http://example.test/data").map
        (fun a => a.max_retries) ≠ some initRetries ∧
    ((CustomSession.init none).session.get_adapter "http://example.test/data").map
        (fun a => a.max_retries) = some defaultRetry ∧
    ((CustomSession.init none).session.get_adapter "https://example.test/data").map
        (fun a => a.max_retries) = some initRetries := by
  refine ⟨by decide, by decide, by decide⟩

/-- C3 amended: the headers and the retry/timeout/delay configuration are
fixed at construction; the headers supplied at construction are exactly
the headers of every outgoing request - whatever the URL, its scheme
included; and the configured retry policy governs every request whose URL
begins with `https://` (requests to other schemes are served by the
session's default adapter, without it). -/
theorem headers_on_every_request_retry_on_https (hdrs : List (String × String))
    (url : String) (tail : String) (params : Option (List (String × String)))
    (outcome : GetOutcome) :
    (CustomSession.init (some hdrs)).headers = hdrs ∧
    (requestsOf ((CustomSession.init (some hdrs)).hit_and_get_data url
        params outcome).2).map Request.headers = [hdrs] ∧
    (CustomSession.init (some hdrs)).session.get_adapter ("https://" ++ tail) =
      some { max_retries := initRetries } ∧
    (CustomSession.init (some hdrs)).session.timeout = some 30 ∧
    (CustomSession.init (some hdrs)).delay = 1 := by
  refine ⟨init_headers hdrs, ?_, rfl, rfl, rfl⟩
  rw [requestsOf_hit]
  simp [init_headers]

/-- Witness for C3's amended statement at concrete inputs: the request
carries the constructed headers even at an `http://` URL, while the
configured retry policy is the adapter for an `https://` URL. -/
theorem headers_on_every_request_retry_on_https_witness :
    (CustomSession.init (some [("Accept", "application/json")])).headers =
      [("Accept", "application/json")] ∧
    (requestsOf ((CustomSession.init (some [("Accept", "application/json")])).hit_and_get_data
        "http://example.test/data" none (GetOutcome.response "\x7b\x7d")).2).map
        Request.headers = [[("Accept", "application/json")]] ∧
    (CustomSession.init (some [("Accept", "application/json")])).session.get_adapter
        "https://example.test/data" = some { max_retries := initRetries } ∧
    (CustomSession.init (some [("Accept", "application/json")])).session.timeout = some 30 ∧
    (CustomSession.init (some [("Accept", "application/json")])).delay = 1 := by
  exact headers_on_every_request_retry_on_https [("Accept", "application/json")]
    "http://example.test/data" "example.test/data" none (GetOutcome.response "\x7b\x7d")

/-- C4: under the policy the constructor mounts for https:// traffic, an
endpoint that persistently answers with any status in
{500, 502, 503, 504, 400, 401, 402, 403} is retried 3 additional times
before giving up, so it receives 4 total HTTP attempts (1 + 3 retries):
urllib3's `Retry(total=3)` counts *retries*, not attempts, which is how
the "total attempts = 3" wording reconciles with the 4-attempt example. -/
theorem retry_forcelist_four_attempts (hdrs : Option (List (String × String)))
    (status : Nat) (h : status ∈ initRetries.status_forcelist) :
    (CustomSession.init hdrs).session.get_adapter "https://example.test/data" =
      some { max_retries := initRetries } ∧
    urlopenAttempts initRetries status = 4 := by
  refine ⟨rfl, ?_⟩
  fin_cases h <;> rfl

/-- Witness for C4 at the spec's example status 503. -/
theorem retry_forcelist_four_attempts_witness :
    (503 ∈ initRetries.status_forcelist) ∧
    (CustomSession.init none).session.get_adapter "https://example.test/data" =
      some { max_retries := initRetries } ∧
    urlopenAttempts initRetries 503 = 4 := by
  refine ⟨by decide, ?_, ?_⟩
  · exact (retry_forcelist_four_attempts none 503 (by decide)).1
  · exact (retry_forcelist_four_attempts none 503 (by decide)).2

/-- C5 is refuted at the first retry: urllib3's `get_backoff_time`
returns 0 before the first consecutive retry, so under the configured
policy the wait before retry 1 is 0 s, not the claim's
`2 * 2^(1-1)` = 2 s - the waits with factor 2 are 0 s, 4 s, 8 s. -/
theorem backoff_first_retry_wait_zero :
    initRetries.get_backoff_time 1 = 0 ∧
    initRetries.get_backoff_time 1 ≠ 2 * 2 ^ (1 - 1) := by
  exact ⟨rfl, by decide⟩

/-- C5 amended: under the configured policy the wait before the first
retry is 0 s, and the wait before the n-th retry for n >= 2 is
`backoff_factor * 2^(n-1)` = `2 * 2^(n-1)` seconds (4 s, 8 s for retries
2 and 3, below the 120 s cap); the intervals between successive retry
attempts (0 s, 4 s, 8 s) are strictly increasing. -/
theorem backoff_zero_then_exponential_increasing (n : Nat) (h1 : 1 ≤ n)
    (h2 : n ≤ initRetries.total) :
    initRetries.get_backoff_time 1 = 0 ∧
    (2 ≤ n → initRetries.get_backoff_time n = 2 * 2 ^ (n - 1)) ∧
    (n < initRetries.total →
      initRetries.get_backoff_time n < initRetries.get_backoff_time (n + 1)) := by
  have h2' : n ≤ 3 := h2
  interval_cases n
  · exact ⟨by decide, fun h => absurd h (by decide), fun _ => by decide⟩
  · exact ⟨by decide, fun _ => by decide, fun _ => by decide⟩
  · exact ⟨by decide, fun _ => by decide, fun _ => by decide⟩

/-- Witness for C5's amended statement at n = 2: the first retry waits
0 s, the second waits 4 s, less than the third's 8 s. -/
theorem backoff_zero_then_exponential_increasing_witness :
    initRetries.get_backoff_time 1 = 0 ∧
    initRetries.get_backoff_time 2 = 2 * 2 ^ (2 - 1) ∧
    initRetries.get_backoff_time 2 < initRetries.get_backoff_time 3 := by
  have h := backoff_zero_then_exponential_increasing 2 (by decide) (by decide)
  exact ⟨h.1, h.2.1 (by decide), h.2.2 (by decide)⟩

/-- C6 (code bug): `__init__` stores 30 in `self.session.timeout`, an
attribute `requests` never reads, and `hit_and_get_data` calls
`session.get` without a `timeout` argument, whose default is `None` - so
no 30-second timeout is in force on any request: every issued request
carries `timeout = None`, as the concrete call below exhibits. -/
theorem timeout_attribute_never_applied :
    (CustomSession.init none).session.timeout = some 30 ∧
    (requestsOf ((CustomSession.init none).hit_and_get_data "https://example.test/data" none
        (GetOutcome.response "\x7b\x7d")).2).map Request.timeout = [none] ∧
    (∀ cs url params outcome,
      (requestsOf ((CustomSession.hit_and_get_data cs url params outcome)).2).map
        Request.timeout = [none]) := by
  refine ⟨rfl, rfl, fun cs url params outcome => ?_⟩
  rw [requestsOf_hit]
  rfl
